import Mathlib

/-!
Shallow embedding of `src/private-projects/mongo-backup-v2/scripts/metrics-exporter.py`,
a small HTTP metrics exporter for a MongoDB backup job.

The exporter reads a JSON state file and renders five Prometheus-style metric
lines per GET request on `/` or `/metrics`.

Modelling choices:
* JSON values are modelled by `Json`; numeric JSON literals are taken to be
  integers (the state file carries integer byte counts and run counters; Python
  ints are unbounded, so `Int` is the right carrier).
* `FileContent` abstracts the filesystem and `json.loads` boundary: the file is
  absent (`STATE_FILE.exists()` is false), raises on `read_text()`, fails JSON
  decoding, or decodes to a `Json` value.
* `epochOf` abstracts `int(time.mktime(time.strptime(s, "%Y%m%d_%H%M%S")))`.
  The result depends on the local timezone, so it is a parameter of the
  embedding; `none` models `strptime` raising on a string that does not match
  the fixed format.
* Python truthiness, `int(...)` conversion and `str(...)` rendering of decoded
  JSON values are modelled by `truthy`, `pyInt` and `pyStr`.
-/

/-- A decoded JSON value, as returned by `json.loads`. Numbers are modelled as
integers. Objects are the final key/value list of the decoded dict (with
`json.loads`, a duplicated key keeps its last occurrence, which `getField`
honours by looking the key up from the right). -/
inductive Json where
| null : Json
| bool : Bool → Json
| num : Int → Json
| str : String → Json
| arr : List Json → Json
| obj : List (String × Json) → Json

/-- Python truthiness of a decoded JSON value: `None`, `False`, `0`, `""`,
`[]` and `\x7b\x7d` are falsy, everything else is truthy. -/
def truthy : Json → Bool
| Json.null => false
| Json.bool b => b
| Json.num n => n != 0
| Json.str s => s != ""
| Json.arr xs => !xs.isEmpty
| Json.obj kvs => !kvs.isEmpty

/-- A single-quote character as a string (39 is the ASCII code). -/
def squote : String := String.singleton (Char.ofNat 39)

/-- Python `repr` of a string, simplified: single-quoted with backslash and
single-quote escaped. (The exporter never calls `repr` on control characters;
only `str()` interpolation of the failure message is reachable.) -/
def pyStrQuoted (s : String) : String :=
  squote ++ ((s.replace "\\" "\\\\").replace squote ("\\" ++ squote)) ++ squote

mutual

/-- Python `repr` of a decoded JSON value. -/
def pyRepr : Json → String
| Json.null => "None"
| Json.bool true => "True"
| Json.bool false => "False"
| Json.num n => toString n
| Json.str s => pyStrQuoted s
| Json.arr xs => "[" ++ pyReprSeq xs ++ "]"
| Json.obj kvs => "\x7b" ++ pyReprObjSeq kvs ++ "\x7d"

/-- Comma-separated `repr`s of the elements of a decoded JSON list. -/
def pyReprSeq : List Json → String
| [] => ""
| [x] => pyRepr x
| x :: y :: xs => pyRepr x ++ ", " ++ pyReprSeq (y :: xs)

/-- Comma-separated `key: value` `repr`s of the entries of a decoded dict. -/
def pyReprObjSeq : List (String × Json) → String
| [] => ""
| [(k, v)] => pyStrQuoted k ++ ": " ++ pyRepr v
| (k, v) :: y :: xs => pyStrQuoted k ++ ": " ++ pyRepr v ++ ", " ++ pyReprObjSeq (y :: xs)

end

/-- Python `str(...)` of a decoded JSON value, as used by f-string
interpolation: a string renders as itself, everything else as its `repr`. -/
def pyStr : Json → String
| Json.str s => s
| Json.null => "None"
| Json.bool true => "True"
| Json.bool false => "False"
| Json.num n => toString n
| Json.arr xs => "[" ++ pyReprSeq xs ++ "]"
| Json.obj kvs => "\x7b" ++ pyReprObjSeq kvs ++ "\x7d"

/-- Value of a nonempty all-digit character list, `none` otherwise. -/
def digitsVal : List Char → Option Nat
| [] => none
| cs =>
  if cs.all Char.isDigit then
    some (cs.foldl (fun a c => 10 * a + (c.toNat - 48)) 0)
  else none

/-- Characters of `s` with leading and trailing whitespace stripped, as
`int(...)` strips it before conversion. -/
def stripWs (s : String) : List Char :=
  ((s.toList.dropWhile Char.isWhitespace).reverse.dropWhile Char.isWhitespace).reverse

/-- Python `int(s)` on a string: optional surrounding whitespace, an optional
sign, then decimal digits; raises (`none`) otherwise. (Digit-group
underscores accepted by CPython are not modelled; the state file carries
plain decimal integers.) -/
def pyIntOfString (s : String) : Option Int :=
  match stripWs s with
  | [] => none
  | c :: rest =>
    if c = '-' then (digitsVal rest).map (fun n => -(n : Int))
    else if c = '+' then (digitsVal rest).map (fun n => (n : Int))
    else (digitsVal (c :: rest)).map (fun n => (n : Int))

/-- Python `int(x)` on a decoded JSON value: ints pass through, bools map to
0/1, numeric strings are parsed, everything else raises (`none`). -/
def pyInt : Json → Option Int
| Json.num n => some n
| Json.bool b => some (if b then 1 else 0)
| Json.str s => pyIntOfString s
| Json.null => none
| Json.arr _ => none
| Json.obj _ => none

/-- `data.get(k)` on the decoded dict: the last binding of `k` wins, matching
`json.loads` duplicate-key behaviour. -/
def getField (kvs : List (String × Json)) (k : String) : Option Json :=
  kvs.reverse.lookup k

/-- The observable state of the backup state file for one request:
`STATE_FILE.exists()` is false; exists but `read_text()` raises; the text is
not valid JSON (`json.loads` raises); or `json.loads` returns a value. -/
inductive FileContent where
| absent : FileContent
| unreadable : FileContent
| invalidJson : FileContent
| json : Json → FileContent

/-- The local variables of `MetricsHandler.build_metrics` after the
`if STATE_FILE.exists(): try: ... except: ...` block. `last_failure` keeps the
decoded JSON value (the Python variable holds it unconverted until the f-string
renders it). -/
structure Vars where
  last_success : Int
  last_size : Int
  total : Int
  last_failure : Json

/-- Line 39-40 of the source: `if data.get("last_success"): last_success =
int(time.mktime(time.strptime(data["last_success"], "%Y%m%d_%H%M%S")))`.
`none` models an exception: `strptime` raising on a malformed timestamp string,
or its `TypeError` on a truthy non-string value. A falsy or missing field
leaves `last_success = 0` (no exception). -/
def step1 (epochOf : String → Option Int) (kvs : List (String × Json)) : Option Int :=
  match getField kvs "last_success" with
  | some v =>
    if truthy v then
      match v with
      | Json.str s => epochOf s
      | _ => none
    else some 0
  | none => some 0

/-- Line 41 of the source: `last_size = int(data.get("last_size_bytes", 0))`;
`none` models `int(...)` raising. -/
def step2 (kvs : List (String × Json)) : Option Int :=
  pyInt ((getField kvs "last_size_bytes").getD (Json.num 0))

/-- Line 42 of the source: `total = int(data.get("total_backups", 0))`;
`none` models `int(...)` raising. -/
def step3 (kvs : List (String × Json)) : Option Int :=
  pyInt ((getField kvs "total_backups").getD (Json.num 0))

/-- Line 43 of the source: `last_failure = data.get("last_failure", "") or ""`.
Never raises. -/
def failureVal (kvs : List (String × Json)) : Json :=
  let f := (getField kvs "last_failure").getD (Json.str "")
  if truthy f then f else Json.str ""

/-- The `try:` block of `build_metrics` applied to the decoded JSON value.
Assignments run in source order; an exception at any step aborts the block but
keeps the assignments already made, and the `except` arm then sets
`last_failure = "state_parse_error"`. A non-dict value raises at
`data.get(...)` (`AttributeError`) before any assignment. -/
def runTry (epochOf : String → Option Int) (data : Json) : Vars :=
  match data with
  | Json.obj kvs =>
    match step1 epochOf kvs with
    | none => Vars.mk 0 0 0 (Json.str "state_parse_error")
    | some ls =>
      match step2 kvs with
      | none => Vars.mk ls 0 0 (Json.str "state_parse_error")
      | some sz =>
        match step3 kvs with
        | none => Vars.mk ls sz 0 (Json.str "state_parse_error")
        | some tt => Vars.mk ls sz tt (failureVal kvs)
  | _ => Vars.mk 0 0 0 (Json.str "state_parse_error")

/-- Lines 31-45 of the source: the variable state after the existence check and
the `try/except`. An absent file leaves the initial zeros and empty failure; a
read or JSON-decode error takes the `except` arm with nothing assigned. -/
def snapshotOf (epochOf : String → Option Int) : FileContent → Vars
| FileContent.absent => Vars.mk 0 0 0 (Json.str "")
| FileContent.unreadable => Vars.mk 0 0 0 (Json.str "state_parse_error")
| FileContent.invalidJson => Vars.mk 0 0 0 (Json.str "state_parse_error")
| FileContent.json data => runTry epochOf data

/-- Lines 46-52 of the source: the five rendered metric lines. The age line is
the Python conditional expression `now - last_success if last_success else 0`
(truthiness of an int is `!= 0`); the failure line interpolates
`str(last_failure)` into the label and `1 if last_failure else 0` as the
value. -/
def renderMetrics (now : Int) (v : Vars) : List String :=
  ["mongo_backup_last_success_timestamp " ++ toString v.last_success,
   "mongo_backup_last_run_age_seconds " ++
     toString (if v.last_success ≠ 0 then now - v.last_success else 0),
   "mongo_backup_last_archive_bytes " ++ toString v.last_size,
   "mongo_backup_total_runs " ++ toString v.total,
   "mongo_backup_last_failure\x7bmessage=\"" ++
     (pyStr v.last_failure ++ ("\"\x7d " ++ (if truthy v.last_failure then "1" else "0")))]

/-- `MetricsHandler.build_metrics`, parameterised by the timestamp-to-epoch
conversion, the sampled `now = int(time.time())`, and the state-file
observation for this request. -/
def build_metrics (epochOf : String → Option Int) (now : Int)
    (file : FileContent) : List String :=
  renderMetrics now (snapshotOf epochOf file)

/-- The response fields the handler sets. `send_error(404)` / the base
handler's 501 also emit a standard HTML error body and headers; those come
from the framework, are unconstrained by the spec, and are left empty here. -/
structure Response where
  status : Nat
  contentType : Option String
  contentLength : Option Nat
  body : String

/-- `MetricsHandler.do_GET` (lines 14-24 of the source): exact-string path
check against `("/metrics", "/")`, else render the metrics, join with
newlines, UTF-8 encode, and reply 200 with the exposition content type and the
byte length of the payload. In Python `self.path` is the raw request target,
query string and all. -/
def do_GET (epochOf : String → Option Int) (now : Int) (file : FileContent)
    (path : String) : Response :=
  if !(path == "/metrics" || path == "/") then
    Response.mk 404 none none ""
  else
    let payload := String.intercalate "\n" (build_metrics epochOf now file)
    Response.mk 200 (some "text/plain; version=0.0.4")
      (some payload.utf8ByteSize) payload

/-- Method dispatch of Python's `http.server.BaseHTTPRequestHandler` (stdlib,
not repository code): a request whose method has no `do_<METHOD>` handler on
the class is answered `501 Not Implemented` (`"Unsupported method"`), and
`MetricsHandler` defines only `do_GET`. -/
def handle_request (epochOf : String → Option Int) (now : Int)
    (file : FileContent) (method path : String) : Response :=
  if method == "GET" then do_GET epochOf now file path
  else Response.mk 501 none none ""

/-- The three extraction steps of the `try:` block all succeed (the block
reaches the `last_failure` assignment without an exception). -/
def extractOk (epochOf : String → Option Int) (kvs : List (String × Json)) : Bool :=
  (step1 epochOf kvs).isSome && (step2 kvs).isSome && (step3 kvs).isSome

/-- The request observes a parse failure: the file exists and reading,
decoding, or some extraction step raises, so the `except` arm runs. -/
def parseFailure (epochOf : String → Option Int) : FileContent → Bool
| FileContent.absent => false
| FileContent.unreadable => true
| FileContent.invalidJson => true
| FileContent.json (Json.obj kvs) => !extractOk epochOf kvs
| FileContent.json _ => true

/-- The parse failure happens before any field assignment: unreadable or
undecodable content, a non-dict top level, or an exception already at the
`last_success` extraction. -/
def earlyFailure (epochOf : String → Option Int) : FileContent → Bool
| FileContent.absent => false
| FileContent.unreadable => true
| FileContent.invalidJson => true
| FileContent.json (Json.obj kvs) => (step1 epochOf kvs).isNone
| FileContent.json _ => true

/-- A concrete timestamp conversion for witnesses: the UTC epoch value of
`20240101_120000` (2024-01-01 12:00:00 is 1704110400 seconds after the
epoch). -/
def epochOfEx : String → Option Int :=
  fun s => if s == "20240101_120000" then some 1704110400 else none

/-- C3: for every state of the state file (absent, unreadable, malformed, or
well-formed) and every timestamp conversion, the metrics-building step is a
total function (every exception of the source is folded into the snapshot, so
nothing propagates to the request path) and always returns exactly five metric
lines. -/
theorem C3_total (epochOf : String → Option Int) (now : Int) (file : FileContent) :
    (build_metrics epochOf now file).length = 5 := rfl

/-- C4: while the state file does not exist, the metrics report all four
numeric gauges as 0 and the failure line as message "" with value 0. -/
theorem C4_absent (epochOf : String → Option Int) (now : Int) :
    build_metrics epochOf now FileContent.absent =
      ["mongo_backup_last_success_timestamp 0",
       "mongo_backup_last_run_age_seconds 0",
       "mongo_backup_last_archive_bytes 0",
       "mongo_backup_total_runs 0",
       "mongo_backup_last_failure\x7bmessage=\"\"\x7d 0"] := rfl

/-- C6: for every built metrics value, the age line equals
`now - last_success_epoch` when the stored epoch is nonzero and 0 when it is
zero, where `now` is the epoch-seconds sample of the request. -/
theorem C6_age (epochOf : String → Option Int) (now : Int) (file : FileContent) :
    (build_metrics epochOf now file).get? 1 =
      some ("mongo_backup_last_run_age_seconds " ++
        toString (if (snapshotOf epochOf file).last_success ≠ 0 then
          now - (snapshotOf epochOf file).last_success else 0)) := rfl

/-- The served-response contract of C5: status 200, the exposition content
type, a Content-Length equal to the UTF-8 byte size of the body, and a body
that is exactly the five metric lines, in order, joined by newlines with
nothing after them. -/
def servedOk (e : String → Option Int) (now : Int) (f : FileContent)
    (r : Response) : Prop :=
  r.status = 200 ∧
  r.contentType = some "text/plain; version=0.0.4" ∧
  r.contentLength = some r.body.utf8ByteSize ∧
  ∃ t1 t2 t3 t4 t5 : String,
    build_metrics e now f =
      ["mongo_backup_last_success_timestamp " ++ t1,
       "mongo_backup_last_run_age_seconds " ++ t2,
       "mongo_backup_last_archive_bytes " ++ t3,
       "mongo_backup_total_runs " ++ t4,
       "mongo_backup_last_failure\x7bmessage=\"" ++ t5] ∧
    r.body = String.intercalate "\n" (build_metrics e now f)

/-- C5: every GET request to "/" and every GET request to "/metrics" is
answered 200 with Content-Type `text/plain; version=0.0.4`, a Content-Length
equal to the UTF-8 byte length of the body, and a body of exactly the five
metric lines in the fixed order with no trailing metadata. -/
theorem C5_ok (e : String → Option Int) (now : Int) (f : FileContent) :
    servedOk e now f (handle_request e now f "GET" "/") ∧
    servedOk e now f (handle_request e now f "GET" "/metrics") := by
  refine ⟨⟨rfl, rfl, rfl, ?_⟩, ⟨rfl, rfl, rfl, ?_⟩⟩ <;>
    exact ⟨_, _, _, _, _, rfl, rfl⟩

/-- The integer value rendered on the age line: `now - last_success` under
Python truthiness of `last_success`, else 0. -/
def ageVal (e : String → Option Int) (now : Int) (f : FileContent) : Int :=
  if (snapshotOf e f).last_success ≠ 0 then now - (snapshotOf e f).last_success
  else 0

/-- C8: two requests against an unchanged state file (same `FileContent`, same
timezone) agree on the timestamp, archive-bytes, total-runs and failure lines;
the two age lines carry values whose difference is exactly the elapsed
wall-clock seconds `n2 - n1`, unless both are the constant 0 (stored epoch
zero). -/
theorem C8_idem (e : String → Option Int) (n1 n2 : Int) (f : FileContent) :
    (build_metrics e n1 f).get? 0 = (build_metrics e n2 f).get? 0 ∧
    (build_metrics e n1 f).get? 2 = (build_metrics e n2 f).get? 2 ∧
    (build_metrics e n1 f).get? 3 = (build_metrics e n2 f).get? 3 ∧
    (build_metrics e n1 f).get? 4 = (build_metrics e n2 f).get? 4 ∧
    (build_metrics e n1 f).get? 1 =
      some ("mongo_backup_last_run_age_seconds " ++ toString (ageVal e n1 f)) ∧
    (build_metrics e n2 f).get? 1 =
      some ("mongo_backup_last_run_age_seconds " ++ toString (ageVal e n2 f)) ∧
    (ageVal e n2 f - ageVal e n1 f = n2 - n1 ∨
      (ageVal e n1 f = 0 ∧ ageVal e n2 f = 0)) := by
  refine ⟨rfl, rfl, rfl, rfl, rfl, rfl, ?_⟩
  by_cases h : (snapshotOf e f).last_success = 0
  · exact Or.inr ⟨by simp [ageVal, h], by simp [ageVal, h]⟩
  · refine Or.inl ?_
    simp only [ageVal, ne_eq, h, not_false_iff, if_true]
    omega

/-- C10: path matching is exact string equality against "/" and "/metrics":
every GET request whose raw request target (query string, trailing slash and
all) is any other string is answered 404. -/
theorem C10_exact (e : String → Option Int) (now : Int) (f : FileContent)
    (p : String) (h1 : p ≠ "/") (h2 : p ≠ "/metrics") :
    (handle_request e now f "GET" p).status = 404 := by
  have hb1 : (p == "/") = false := by simp [h1]
  have hb2 : (p == "/metrics") = false := by simp [h2]
  simp [handle_request, do_GET, hb1, hb2]

/-- Witness for C10 at the concrete request target "/metrics?x=1". -/
theorem C10_exact_witness :
    ("/metrics?x=1" : String) ≠ "/" ∧ ("/metrics?x=1" : String) ≠ "/metrics" ∧
    (handle_request epochOfEx 0 FileContent.absent "GET" "/metrics?x=1").status = 404 :=
  ⟨by decide, by decide,
    C10_exact epochOfEx 0 FileContent.absent "/metrics?x=1" (by decide) (by decide)⟩

/-- A record whose timestamp extracts successfully before a `last_size_bytes`
value that makes `int(...)` raise. -/
def badSizeKvs : List (String × Json) :=
  [("last_success", Json.str "20240101_120000"),
   ("last_size_bytes", Json.str "oops")]

/-- Counterexample to C1 as stated: this content raises during field
extraction (the failure line carries `state_parse_error` with value 1), yet
`last_success` had already been assigned when the exception hit, so the
timestamp gauge is 1704110400, not 0. -/
theorem C1_counterexample :
    parseFailure epochOfEx (FileContent.json (Json.obj badSizeKvs)) = true ∧
    (build_metrics epochOfEx 0 (FileContent.json (Json.obj badSizeKvs))).get? 4 =
      some "mongo_backup_last_failure\x7bmessage=\"state_parse_error\"\x7d 1" ∧
    (build_metrics epochOfEx 0 (FileContent.json (Json.obj badSizeKvs))).get? 0 =
      some "mongo_backup_last_success_timestamp 1704110400" ∧
    (build_metrics epochOfEx 0 (FileContent.json (Json.obj badSizeKvs))).get? 0 ≠
      some "mongo_backup_last_success_timestamp 0" :=
  ⟨by decide, by decide, by decide, by decide⟩

/-- C1 amended: every parse failure yields the failure line
`state_parse_error` with value 1; when the failure occurs before any field
assignment (unreadable file, malformed JSON, non-object top level, or an
exception at the `last_success` extraction) all numeric fields are zero.
Fields whose extraction completed before a later failing step keep their
extracted values. -/
theorem C1_amended (e : String → Option Int) (now : Int) (f : FileContent)
    (h : parseFailure e f = true) :
    (build_metrics e now f).get? 4 =
      some "mongo_backup_last_failure\x7bmessage=\"state_parse_error\"\x7d 1" ∧
    (earlyFailure e f = true →
      build_metrics e now f =
        ["mongo_backup_last_success_timestamp 0",
         "mongo_backup_last_run_age_seconds 0",
         "mongo_backup_last_archive_bytes 0",
         "mongo_backup_total_runs 0",
         "mongo_backup_last_failure\x7bmessage=\"state_parse_error\"\x7d 1"]) := by
  cases f with
  | absent => simp [parseFailure] at h
  | unreadable => exact ⟨rfl, fun _ => rfl⟩
  | invalidJson => exact ⟨rfl, fun _ => rfl⟩
  | json v =>
    cases v with
    | null => exact ⟨rfl, fun _ => rfl⟩
    | bool b => exact ⟨rfl, fun _ => rfl⟩
    | num n => exact ⟨rfl, fun _ => rfl⟩
    | str s => exact ⟨rfl, fun _ => rfl⟩
    | arr xs => exact ⟨rfl, fun _ => rfl⟩
    | obj kvs =>
      simp only [parseFailure, Bool.not_eq_true'] at h
      rcases hs1 : step1 e kvs with _ | ls
      · have hrun : runTry e (Json.obj kvs) =
            Vars.mk 0 0 0 (Json.str "state_parse_error") := by
          simp [runTry, hs1]
        refine ⟨?_, fun _ => ?_⟩ <;> simp only [build_metrics, snapshotOf, hrun] <;> rfl
      · rcases hs2 : step2 kvs with _ | sz
        · have hrun : runTry e (Json.obj kvs) =
              Vars.mk ls 0 0 (Json.str "state_parse_error") := by
            simp [runTry, hs1, hs2]
          refine ⟨?_, fun hearly => ?_⟩
          · simp only [build_metrics, snapshotOf, hrun]; rfl
          · simp [earlyFailure, hs1] at hearly
        · rcases hs3 : step3 kvs with _ | tt
          · have hrun : runTry e (Json.obj kvs) =
                Vars.mk ls sz 0 (Json.str "state_parse_error") := by
              simp [runTry, hs1, hs2, hs3]
            refine ⟨?_, fun hearly => ?_⟩
            · simp only [build_metrics, snapshotOf, hrun]; rfl
            · simp [earlyFailure, hs1] at hearly
          · exfalso
            simp [extractOk, hs1, hs2, hs3] at h

/-- Witness for C1 amended at undecodable file content. -/
theorem C1_amended_witness :
    parseFailure epochOfEx FileContent.invalidJson = true ∧
    ((build_metrics epochOfEx 0 FileContent.invalidJson).get? 4 =
      some "mongo_backup_last_failure\x7bmessage=\"state_parse_error\"\x7d 1" ∧
    (earlyFailure epochOfEx FileContent.invalidJson = true →
      build_metrics epochOfEx 0 FileContent.invalidJson =
        ["mongo_backup_last_success_timestamp 0",
         "mongo_backup_last_run_age_seconds 0",
         "mongo_backup_last_archive_bytes 0",
         "mongo_backup_total_runs 0",
         "mongo_backup_last_failure\x7bmessage=\"state_parse_error\"\x7d 1"])) :=
  ⟨by decide, C1_amended epochOfEx 0 FileContent.invalidJson (by decide)⟩

/-- Counterexample to C2 as stated: a POST to /metrics is answered 501 (the
base handler has no `do_POST`), not 404. -/
theorem C2_counterexample :
    (handle_request epochOfEx 0 FileContent.absent "POST" "/metrics").status = 501 ∧
    (501 : Nat) ≠ 404 :=
  ⟨rfl, by decide⟩

/-- C2 amended: a request whose method is not GET is answered 501 Not
Implemented by the inherited base-handler dispatch; a GET whose path is
neither "/" nor "/metrics" is answered 404; a GET to "/" or "/metrics" is
answered 200. -/
theorem C2_amended (e : String → Option Int) (now : Int) (f : FileContent)
    (method path : String) :
    (handle_request e now f method path).status =
      if method == "GET" then
        (if path == "/metrics" || path == "/" then 200 else 404)
      else 501 := by
  by_cases hm : (method == "GET") = true
  · simp only [handle_request, hm, if_true]
    by_cases hp : (path == "/metrics" || path == "/") = true
    · simp [do_GET, hp]
    · simp only [Bool.not_eq_true] at hp
      simp [do_GET, hp]
  · simp only [Bool.not_eq_true] at hm
    simp [handle_request, hm]

/-- The well-formed state record of C7: `last_success="20240101_120000"`,
`last_size_bytes=1048576`, `total_backups=42`, no `last_failure`. -/
def wellFormedKvs : List (String × Json) :=
  [("last_success", Json.str "20240101_120000"),
   ("last_size_bytes", Json.num 1048576),
   ("total_backups", Json.num 42)]

/-- Counterexample to C7 as stated: with the UTC conversion of
`20240101_120000` (1704110400) and the clock at `now = 0`, the rendered age is
-1704110400, a negative value, so the age is not non-negative for every
current clock value. -/
theorem C7_counterexample :
    (build_metrics epochOfEx 0 (FileContent.json (Json.obj wellFormedKvs))).get? 1 =
      some "mongo_backup_last_run_age_seconds -1704110400" ∧
    ((0 : Int) - 1704110400) < 0 :=
  ⟨by decide, by decide⟩

/-- C7 amended: for the well-formed record, whatever (nonzero) epoch value the
local-time conversion assigns to `20240101_120000`, the response carries
archive bytes 1048576, total runs 42, a failure gauge of 0, and an age of
`now - epoch`; the age is non-negative whenever the clock is at or after that
epoch (and negative for an earlier clock, as the counterexample shows). -/
theorem C7_amended (e : String → Option Int) (now ep : Int)
    (h : e "20240101_120000" = some ep) (hep : ep ≠ 0) :
    (build_metrics e now (FileContent.json (Json.obj wellFormedKvs))).get? 2 =
      some "mongo_backup_last_archive_bytes 1048576" ∧
    (build_metrics e now (FileContent.json (Json.obj wellFormedKvs))).get? 3 =
      some "mongo_backup_total_runs 42" ∧
    (build_metrics e now (FileContent.json (Json.obj wellFormedKvs))).get? 4 =
      some "mongo_backup_last_failure\x7bmessage=\"\"\x7d 0" ∧
    (build_metrics e now (FileContent.json (Json.obj wellFormedKvs))).get? 1 =
      some ("mongo_backup_last_run_age_seconds " ++ toString (now - ep)) ∧
    (ep ≤ now → 0 ≤ now - ep) := by
  have hs1 : step1 e wellFormedKvs = some ep := by
    have hx : step1 e wellFormedKvs = e "20240101_120000" := rfl
    rw [hx, h]
  have hrun : runTry e (Json.obj wellFormedKvs) =
      Vars.mk ep 1048576 42 (Json.str "") := by
    simp only [runTry, hs1]
    rfl
  have hage : (if ep ≠ 0 then now - ep else 0) = now - ep := if_pos hep
  refine ⟨?_, ?_, ?_, ?_, fun hle => by omega⟩ <;>
    simp only [build_metrics, snapshotOf, hrun, renderMetrics, hage] <;> rfl

/-- Witness for C7 amended at the UTC conversion and a clock after the
timestamp. -/
theorem C7_amended_witness :
    epochOfEx "20240101_120000" = some 1704110400 ∧ (1704110400 : Int) ≠ 0 ∧
    ((build_metrics epochOfEx 1704200000 (FileContent.json (Json.obj wellFormedKvs))).get? 2 =
      some "mongo_backup_last_archive_bytes 1048576" ∧
    (build_metrics epochOfEx 1704200000 (FileContent.json (Json.obj wellFormedKvs))).get? 3 =
      some "mongo_backup_total_runs 42" ∧
    (build_metrics epochOfEx 1704200000 (FileContent.json (Json.obj wellFormedKvs))).get? 4 =
      some "mongo_backup_last_failure\x7bmessage=\"\"\x7d 0" ∧
    (build_metrics epochOfEx 1704200000 (FileContent.json (Json.obj wellFormedKvs))).get? 1 =
      some ("mongo_backup_last_run_age_seconds " ++
        toString ((1704200000 : Int) - 1704110400)) ∧
    ((1704110400 : Int) ≤ 1704200000 → 0 ≤ (1704200000 : Int) - 1704110400)) :=
  ⟨by decide, by decide,
    C7_amended epochOfEx 1704200000 1704110400 (by decide) (by decide)⟩

/-- C9: for every record whose three extractions succeed and whose
`last_failure` field is absent or carries a JSON-falsy value (null, false, 0,
or the empty string), the `... or ""` normalization makes the failure line
read message "" with value 0, identically to an absent field. -/
theorem C9_falsy (e : String → Option Int) (now : Int)
    (kvs : List (String × Json)) (hok : extractOk e kvs = true)
    (hf : getField kvs "last_failure" = none ∨
          getField kvs "last_failure" = some Json.null ∨
          getField kvs "last_failure" = some (Json.bool false) ∨
          getField kvs "last_failure" = some (Json.num 0) ∨
          getField kvs "last_failure" = some (Json.str "")) :
    (build_metrics e now (FileContent.json (Json.obj kvs))).get? 4 =
      some "mongo_backup_last_failure\x7bmessage=\"\"\x7d 0" := by
  simp only [extractOk, Bool.and_eq_true] at hok
  obtain ⟨⟨h1, h2⟩, h3⟩ := hok
  obtain ⟨ls, hs1⟩ := Option.isSome_iff_exists.mp h1
  obtain ⟨sz, hs2⟩ := Option.isSome_iff_exists.mp h2
  obtain ⟨tt, hs3⟩ := Option.isSome_iff_exists.mp h3
  have hfv : failureVal kvs = Json.str "" := by
    rcases hf with h | h | h | h | h <;> simp [failureVal, h, truthy]
  have hrun : runTry e (Json.obj kvs) = Vars.mk ls sz tt (Json.str "") := by
    simp [runTry, hs1, hs2, hs3, hfv]
  simp only [build_metrics, snapshotOf, hrun]
  rfl

/-- Witness for C9 at a record carrying `last_failure: null`. -/
theorem C9_falsy_witness :
    extractOk epochOfEx [("last_failure", Json.null)] = true ∧
    (build_metrics epochOfEx 0
        (FileContent.json (Json.obj [("last_failure", Json.null)]))).get? 4 =
      some "mongo_backup_last_failure\x7bmessage=\"\"\x7d 0" :=
  ⟨by decide, C9_falsy epochOfEx 0 [("last_failure", Json.null)] (by decide)
    (Or.inr (Or.inl rfl))⟩
